import Mathlib

/-!
Verification development for the Serializd-Plex browser extension core
(content script `scripts/content.js` and background worker `src/background.js`).

The JavaScript source is shallowly embedded: JS objects used as string-keyed
maps become insertion-ordered association lists, `null`/`undefined` become
`Option`, thrown exceptions that the source catches become `Option`/explicit
results, and JS truthiness on numbers (`0` and `null` are falsy) is modelled
explicitly.  Timestamps are naturals (seconds), TTL arithmetic is done in `Int`
exactly as JS number subtraction behaves on these magnitudes.  Regex-based
attribute extraction from Plex XML responses is abstracted into a structured
record whose fields carry exactly the values the source's regexes would
extract; browser platform primitives (the WHATWG `URL` constructor, timers,
the storage backend) appear as explicit parameters or explicit state.
-/

namespace SerializdPlex

/-! ### JavaScript-value modelling helpers -/

/-- JS truthiness of a number-or-null value (`null` and `0` are falsy). -/
def isTruthyNum : Option Nat → Bool
  | none => false
  | some n => n != 0

/-- JS truthiness of a rating value (number-or-null; `0` is falsy). -/
def isTruthyRat : Option ℚ → Bool
  | none => false
  | some q => q != 0

/-- JS nullish coalescing `a ?? b` on optional values. -/
def ncoalesce {α : Type} : Option α → Option α → Option α
  | some a, _ => some a
  | none, b => b

/-- JS `a || b` on number-or-null values (`0` falls through like `null`). -/
def jsOrNum (a b : Option Nat) : Option Nat :=
  match a with
  | some n => if n = 0 then b else some n
  | none => b

/-- Lookup in a JS object used as a string-keyed map (association list in
insertion order). -/
def objGet {α : Type} (cache : List (String × α)) (k : String) : Option α :=
  (cache.find? (fun p => p.1 == k)).map (·.2)

/-- JS `cache[k] = v`: update in place when the key exists (preserving
insertion order), otherwise append. -/
def objSet {α : Type} (cache : List (String × α)) (k : String) (v : α) :
    List (String × α) :=
  if cache.any (fun p => p.1 == k) then
    cache.map (fun p => if p.1 == k then (k, v) else p)
  else cache ++ [(k, v)]

/-- JS `delete cache[k]`. -/
def objDelete {α : Type} (cache : List (String × α)) (k : String) :
    List (String × α) :=
  cache.filter (fun p => p.1 != k)

/-! ### Constants (content script header) -/

/-- 7 days in seconds. -/
def CACHE_TTL : Nat := 604800

/-- 10 minutes in seconds for server info caching. -/
def SERVER_CACHE_TTL : Nat := 600

/-- Maximum number of server entries to cache. -/
def MAX_CACHE_ENTRIES : Nat := 50

/-- Retry window for timing-sensitive UI/data availability. -/
def RETRY_DELAYS_MS : List Nat := [350, 900, 1800]

/-! ### Cache data model -/

/-- Entry of the `cached_servers` map.  Field truthiness mirrors JS: an empty
string models a falsy address/port/scheme, `timestamp = none` models a missing
timestamp field and `some 0` the falsy timestamp `0`. -/
structure ServerCacheEntry where
  address : String
  port : String
  scheme : String
  localAddresses : Option String
  serverName : Option String
  timestamp : Option Nat
deriving DecidableEq, Repr

/-- Entry of the `cached_shows` map. -/
structure ShowCacheEntry where
  tmdbId : Option Nat
  url : String
  rating : Option ℚ
  seasonMap : Option (List (Nat × Nat))
  timestamp : Option Nat
deriving DecidableEq, Repr

abbrev ServerCache := List (String × ServerCacheEntry)
abbrev ShowCache := List (String × ShowCacheEntry)

/-- `getServerCacheKey` from the content script. -/
def getServerCacheKey (serverId : String) : String :=
  "serializd_plex_server_" ++ serverId

/-- `getCacheKey` from the content script. -/
def getCacheKey (title year : String) : String :=
  title ++ "-" ++ year

/-- `isExpired(entry, ttl)`: a missing or falsy (`0`) timestamp is expired;
otherwise expired iff `now - timestamp > ttl` (JS number subtraction, so the
comparison is over `Int`). -/
def isExpired (timestamp : Option Nat) (now ttl : Nat) : Bool :=
  match timestamp with
  | none => true
  | some t => if t = 0 then true else decide ((now : Int) - (t : Int) > (ttl : Int))

/-- `isValidServerCacheEntry`: address, port and scheme must be truthy. -/
def isValidServerCacheEntry (e : ServerCacheEntry) : Bool :=
  e.address != "" && e.port != "" && e.scheme != ""

/-- Timestamp used by the eviction sort: `entry.timestamp || 0`. -/
def tsOrZero (e : ServerCacheEntry) : Nat :=
  e.timestamp.getD 0

/-- Stable insertion of an entry into a timestamp-sorted list: an element
already in the list stays in front of a later-inserted element with an equal
timestamp, matching the stability of `Array.prototype.sort`. -/
def insertByTs (x : String × ServerCacheEntry) :
    ServerCache → ServerCache
  | [] => [x]
  | y :: ys =>
    if tsOrZero y.2 < tsOrZero x.2 then y :: insertByTs x ys
    else x :: y :: ys

/-- Stable sort of `Object.entries(cache)` by `(a.timestamp || 0)` ascending. -/
def sortByTs : ServerCache → ServerCache
  | [] => []
  | x :: xs => insertByTs x (sortByTs xs)

/-- `pruneCacheEntries(cache)`: when strictly more than `MAX_CACHE_ENTRIES`
entries exist, delete the `length - MAX_CACHE_ENTRIES` oldest-by-timestamp
entries.  The JS function mutates `cache` and returns the removed count; the
embedding returns the pruned cache. -/
def pruneCacheEntries (cache : ServerCache) : ServerCache :=
  if cache.length ≤ MAX_CACHE_ENTRIES then cache
  else
    let sorted := sortByTs cache
    let toRemove := (sorted.take (cache.length - MAX_CACHE_ENTRIES)).map (·.1)
    cache.filter (fun p => ¬ toRemove.contains p.1)

/-- Input record handed to `cacheServerInfo` (`address`/`port`/`scheme`
strings, optional `localAddresses`/`serverName`). -/
structure ServerInfoInput where
  address : String
  port : String
  scheme : String
  localAddresses : Option String
  serverName : Option String
deriving DecidableEq, Repr

/-- `cacheServerInfo(serverId, serverInfo)`: reject falsy address/port/scheme,
prune, then insert the new entry under `getServerCacheKey serverId` with the
current timestamp (`serverName || null` maps a falsy name to `null`).
Returns the JS boolean result together with the written cache. -/
def cacheServerInfo (cache : ServerCache) (serverId : String)
    (info : ServerInfoInput) (now : Nat) : Bool × ServerCache :=
  if info.address == "" || info.port == "" || info.scheme == "" then
    (false, cache)
  else
    let key := getServerCacheKey serverId
    let pruned := pruneCacheEntries cache
    let entry : ServerCacheEntry :=
      { address := info.address
        port := info.port
        scheme := info.scheme
        localAddresses := info.localAddresses
        timestamp := some now
        serverName :=
          match info.serverName with
          | some s => if s = "" then none else some s
          | none => none }
    (true, objSet pruned key entry)

/-- `getCachedServerInfo(serverId)`: expired or structurally invalid entries
are deleted on read and `null` is returned; otherwise the entry is returned.
The second component is the storage state after the read. -/
def getCachedServerInfo (cache : ServerCache) (serverId : String) (now : Nat) :
    Option ServerCacheEntry × ServerCache :=
  match objGet cache (getServerCacheKey serverId) with
  | some entry =>
    if isExpired entry.timestamp now SERVER_CACHE_TTL then
      (none, objDelete cache (getServerCacheKey serverId))
    else if ¬ isValidServerCacheEntry entry then
      (none, objDelete cache (getServerCacheKey serverId))
    else (some entry, cache)
  | none => (none, cache)

/-- `getCachedRating(title, year)`: return the entry under `title-year` unless
absent or expired against the 7-day TTL. -/
def getCachedRating (cache : ShowCache) (title year : String) (now : Nat) :
    Option ShowCacheEntry :=
  match objGet cache (getCacheKey title year) with
  | some entry =>
    if ¬ isExpired entry.timestamp now CACHE_TTL then some entry else none
  | none => none

/-- `cacheRating(key, data)`: write `data` under `key`, overwriting its
timestamp with the current time. -/
def cacheRating (cache : ShowCache) (key : String) (data : ShowCacheEntry)
    (now : Nat) : ShowCache :=
  objSet cache key { data with timestamp := some now }

/-- A valid server entry with timestamp `i + 1`, used to build concrete cache
states. -/
def serverEntryAt (i : Nat) : ServerCacheEntry :=
  { address := "10.0.0.1", port := "32400", scheme := "http",
    localAddresses := none, serverName := none, timestamp := some (i + 1) }

/-- A server cache already filled to capacity: 50 distinct keys. -/
def fullServerCache50 : ServerCache :=
  (List.range 50).map (fun i => (getServerCacheKey ("s" ++ toString i), serverEntryAt i))

/-- Fresh connection details to be written for a server id not yet cached. -/
def freshServerInfo : ServerInfoInput :=
  { address := "192.168.1.7", port := "32400", scheme := "https",
    localAddresses := none, serverName := none }

/-! ### Retry scheduler (`schedulePageRetry` / `clearRetryState`) -/

/-- The module-level `retryState` record.  `timerPending = some (h, d)` models
a live `setTimeout` handle whose callback captured href `h` and was armed with
delay `d` milliseconds; `none` models `timeoutId === null`. -/
structure RetryState where
  href : Option String
  attempts : Nat
  timerPending : Option (String × Nat)
deriving DecidableEq, Repr

/-- `clearRetryState()`: cancel any pending timer and reset the record. -/
def clearRetryState : RetryState :=
  { href := none, attempts := 0, timerPending := none }

/-- `schedulePageRetry(reason)` with `href = window.location.href = current`:
a different tracked href first clears the state (cancelling any pending
timer) and re-tracks `current`; a still-pending timer coalesces the request;
an exhausted schedule (3 attempts) is a no-op; otherwise arm a timer with
delay `RETRY_DELAYS_MS[attempts]` and bump the counter. -/
def schedulePageRetry (current : String) (s : RetryState) : RetryState :=
  let s1 := if s.href ≠ some current then
              { clearRetryState with href := some current }
            else s
  if s1.timerPending.isSome then s1
  else if s1.attempts ≥ RETRY_DELAYS_MS.length then s1
  else { s1 with
         attempts := s1.attempts + 1,
         timerPending := some (current, RETRY_DELAYS_MS.getD s1.attempts 0) }

/-- The armed timer's callback: null the handle; if the page href moved since
the timer was armed, clear the state and drop the retry (second component
`false` = the resolution pipeline is not re-invoked), else re-invoke the
pipeline (`true`). -/
def timerFire (current : String) (s : RetryState) : RetryState × Bool :=
  match s.timerPending with
  | none => (s, false)
  | some (captured, _) =>
    if current ≠ captured then (clearRetryState, false)
    else ({ s with timerPending := none }, true)

/-! ### Plex metadata identity extraction -/

/-- The tuple returned by `extractTMDBIdFromPlexXml`. -/
structure ResolvedIdentity where
  showTmdbId : Option Nat
  seasonTmdbId : Option Nat
  seasonNum : Option Nat
  episodeNum : Option Nat
deriving DecidableEq, Repr

/-- Structured view of a Plex metadata XML response.  Each field carries
exactly what the source's regex pass would extract from the raw text:
`contentType` the first `type="movie|show|season|episode"` attribute,
`index`/`parentIndex` the numeric attributes, `guidTmdb`/`parentGuidTmdb`/
`grandparentGuidTmdb` the id embedded as `tmdb://N` in the respective guid
attribute (`none` when absent or not a tmdb guid), `guidElementTmdbId` the id
of the first `<Guid id="tmdb://N">` child element, `guidElementsTmdbIds` the
tmdb ids of all `<Guid>` elements in document order (DOM fallback pass), and
`grandparentRatingKey`/`parentRatingKey` the numeric rating-key attributes. -/
structure PlexXml where
  contentType : Option String
  index : Option Nat
  parentIndex : Option Nat
  guidTmdb : Option Nat
  parentGuidTmdb : Option Nat
  grandparentGuidTmdb : Option Nat
  guidElementTmdbId : Option Nat
  guidElementsTmdbIds : List Nat
  grandparentRatingKey : Option Nat
  parentRatingKey : Option Nat
deriving DecidableEq, Repr

/-- `extractTMDBIdFromPlexXml(xmlText)`: movies are excluded; shows take their
own tmdb guid (element first, attribute second); seasons take season number
from `index`, season id from their own guid and show id from the parent guid;
episodes take season number from `parentIndex`, episode number from `index`,
show id from the grandparent guid and season id from the parent guid.  Two
show-id fallbacks apply to show-level/untyped items only, and a result without
a truthy show id and without any season/episode context is `null`. -/
def extractTMDBIdFromPlexXml (x : PlexXml) : Option ResolvedIdentity :=
  if x.contentType = some "movie" then none
  else
    let s0 : ResolvedIdentity :=
      if x.contentType = some "show" then
        { showTmdbId := jsOrNum x.guidElementTmdbId x.guidTmdb,
          seasonTmdbId := none, seasonNum := none, episodeNum := none }
      else if x.contentType = some "season" then
        { showTmdbId := x.parentGuidTmdb,
          seasonTmdbId := jsOrNum x.guidElementTmdbId x.guidTmdb,
          seasonNum := x.index, episodeNum := none }
      else if x.contentType = some "episode" then
        { showTmdbId := x.grandparentGuidTmdb,
          seasonTmdbId := x.parentGuidTmdb,
          seasonNum := x.parentIndex, episodeNum := x.index }
      else
        { showTmdbId := none, seasonTmdbId := none,
          seasonNum := none, episodeNum := none }
    let showOrUntyped : Bool :=
      x.contentType = some "show" || x.contentType = none
    let s1 :=
      if !isTruthyNum s0.showTmdbId && showOrUntyped then
        { s0 with showTmdbId := jsOrNum x.guidElementTmdbId x.guidTmdb }
      else s0
    let s2 :=
      if !isTruthyNum s1.showTmdbId && showOrUntyped then
        { s1 with showTmdbId :=
            match x.guidElementsTmdbIds.find? (fun n => n != 0) with
            | some n => some n
            | none => s1.showTmdbId }
      else s1
    let hasContext : Bool :=
      s2.seasonTmdbId.isSome || s2.seasonNum.isSome || s2.episodeNum.isSome
    if !isTruthyNum s2.showTmdbId && !hasContext then none
    else some s2

/-- `buildSerializdUrl(showTmdbId, seasonTmdbId, seasonNum, episodeNum)`:
show segment always; season segment `season/<seasonTmdbId>/<seasonNum>` only
when both the season number and the season id are non-null; episode segment
`episode/<episodeNum>` only inside a season segment. -/
def buildSerializdUrl (showTmdbId : Nat) (seasonTmdbId seasonNum episodeNum : Option Nat) :
    String :=
  match seasonNum, seasonTmdbId with
  | some sn, some sid =>
    match episodeNum with
    | some en =>
      "https://www.serializd.com/show/" ++ toString showTmdbId ++
        "/season/" ++ toString sid ++ "/" ++ toString sn ++
        "/episode/" ++ toString en
    | none =>
      "https://www.serializd.com/show/" ++ toString showTmdbId ++
        "/season/" ++ toString sid ++ "/" ++ toString sn
  | _, _ => "https://www.serializd.com/show/" ++ toString showTmdbId

/-- `extractRelatedPlexKeys(xmlText)`: collect `/library/metadata/<id>` for
the grandparent rating key, then for the parent rating key unless it repeats
the first key. -/
def extractRelatedPlexKeys (x : PlexXml) : List String :=
  let keys : List String :=
    match x.grandparentRatingKey with
    | some n => ["/library/metadata/" ++ toString n]
    | none => []
  match x.parentRatingKey with
  | some n =>
    let parentKey := "/library/metadata/" ++ toString n
    if keys.contains parentKey then keys else keys ++ [parentKey]
  | none => keys

/-- The merge performed when a related fetch yields a show id: the related
show id wins, while season/episode data prefers the primary response via `??`
(nullish coalescing). -/
def mergeFallbackIdentity (primaryData : Option ResolvedIdentity)
    (r : ResolvedIdentity) : ResolvedIdentity :=
  { showTmdbId := r.showTmdbId,
    seasonTmdbId := ncoalesce (primaryData.bind (·.seasonTmdbId)) r.seasonTmdbId,
    seasonNum := ncoalesce (primaryData.bind (·.seasonNum)) r.seasonNum,
    episodeNum := ncoalesce (primaryData.bind (·.episodeNum)) r.episodeNum }

/-- The related-key loop of `fetchTMDBIdFromPlex`.  `fetchRelated` is the
privileged proxy fetch for a related key; `none` covers a failed URL build,
a transport error or an unsuccessful response, each of which makes the loop
`continue`. -/
def fallbackLoop (primaryData : Option ResolvedIdentity)
    (fetchRelated : String → Option PlexXml) :
    List String → Option ResolvedIdentity
  | [] => primaryData
  | k :: rest =>
    match fetchRelated k with
    | none => fallbackLoop primaryData fetchRelated rest
    | some xml =>
      match extractTMDBIdFromPlexXml xml with
      | some r =>
        if isTruthyNum r.showTmdbId then
          some (mergeFallbackIdentity primaryData r)
        else fallbackLoop primaryData fetchRelated rest
      | none => fallbackLoop primaryData fetchRelated rest

/-- The resolution tail of `fetchTMDBIdFromPlex` once the primary metadata
response `primary` is in hand: return the primary identity when it already
carries a truthy show id, otherwise walk the related keys. -/
def fetchTMDBIdFromPlex (primary : PlexXml)
    (fetchRelated : String → Option PlexXml) : Option ResolvedIdentity :=
  let primaryData := extractTMDBIdFromPlexXml primary
  if isTruthyNum (primaryData.bind (·.showTmdbId)) then primaryData
  else
    let relatedKeys := extractRelatedPlexKeys primary
    if relatedKeys.isEmpty then primaryData
    else fallbackLoop primaryData fetchRelated relatedKeys

/-- C5 scenario input: an episode record with `parentIndex=2`, `index=5`, a
grandparent guid embedding tmdb id 100 and a parent guid embedding tmdb id
200. -/
def episodeXmlScenario : PlexXml :=
  { contentType := some "episode", index := some 5, parentIndex := some 2,
    guidTmdb := none, parentGuidTmdb := some 200, grandparentGuidTmdb := some 100,
    guidElementTmdbId := none, guidElementsTmdbIds := [],
    grandparentRatingKey := none, parentRatingKey := none }

/-- C6 scenario input: an episode record lacking any grandparent reference
but carrying `parentRatingKey=55`. -/
def episodeNoGrandparentXml : PlexXml :=
  { contentType := some "episode", index := some 5, parentIndex := some 2,
    guidTmdb := none, parentGuidTmdb := none, grandparentGuidTmdb := none,
    guidElementTmdbId := none, guidElementsTmdbIds := [],
    grandparentRatingKey := none, parentRatingKey := some 55 }

/-- C6 scenario fallback response: a show-level record with external id 77. -/
def showXml77 : PlexXml :=
  { contentType := some "show", index := none, parentIndex := none,
    guidTmdb := none, parentGuidTmdb := none, grandparentGuidTmdb := none,
    guidElementTmdbId := some 77, guidElementsTmdbIds := [77],
    grandparentRatingKey := none, parentRatingKey := none }

/-- C6 scenario proxy: only `/library/metadata/55` resolves, to `showXml77`. -/
def relatedFetch55 : String → Option PlexXml :=
  fun k => if k = "/library/metadata/55" then some showXml77 else none

/-- Concrete input for the related-key ordering: grandparent key 1 and parent
key 2. -/
def relatedKeysXml12 : PlexXml :=
  { contentType := some "episode", index := none, parentIndex := none,
    guidTmdb := none, parentGuidTmdb := none, grandparentGuidTmdb := none,
    guidElementTmdbId := none, guidElementsTmdbIds := [],
    grandparentRatingKey := some 1, parentRatingKey := some 2 }

/-! ### Safe Plex API URL construction (`buildPlexApiUrl`) -/

/-- JS `parseInt(s, 10)`: skip leading whitespace, take an optional sign and
the longest digit prefix; no digits means `NaN`, modelled as `none`. -/
def jsParseInt (s : String) : Option Int :=
  let cs := s.data.dropWhile Char.isWhitespace
  let signAndRest : Int × List Char :=
    match cs with
    | '-' :: r => (-1, r)
    | '+' :: r => (1, r)
    | r => (1, r)
  let digits := signAndRest.2.takeWhile Char.isDigit
  if digits.isEmpty then none
  else some (signAndRest.1 *
    (digits.foldl (fun n c => n * 10 + (c.toNat - 48)) 0 : Nat))

/-- Abstract WHATWG `URL` value: just enough structure to track the query
parameters the source sets. -/
structure JsUrl where
  scheme : String
  host : String
  port : Nat
  path : String
  query : List (String × String)
deriving DecidableEq, Repr

/-- `url.searchParams.set(k, v)`: overwrite in place when the key already
exists, else append the pair. -/
def setSearchParam (q : List (String × String)) (k v : String) :
    List (String × String) :=
  if q.any (fun p => p.1 == k) then
    q.map (fun p => if p.1 == k then (k, v) else p)
  else q ++ [(k, v)]

/-- JS `address.includes(c)` for a single character `c`, as char membership
in the string's character list. -/
def containsChar (s : String) (c : Char) : Bool :=
  s.data.contains c

/-- `buildPlexApiUrl(scheme, address, port, plexKey)`.  The WHATWG URL
constructor `new URL(plexKey, base)` is a browser primitive and enters as the
parameter `urlApi` (applied to the key and the base string); a constructor
throw is modelled by `none` and lands in the source's `catch`, which returns
`null`.  The source finally returns `url.toString()`; the embedding returns
the URL value itself, with both query parameters set on it. -/
def buildPlexApiUrl (urlApi : String → String → Option JsUrl)
    (scheme address port plexKey : String) : Option JsUrl :=
  if ¬ (scheme = "http" ∨ scheme = "https") then none
  else
    match jsParseInt port with
    | none => none
    | some portNum =>
      if portNum < 1 ∨ portNum > 65535 then none
      else if containsChar address '/' || containsChar address '?' ||
          containsChar address '#' then
        none
      else
        match urlApi plexKey (scheme ++ "://" ++ address ++ ":" ++ toString portNum) with
        | none => none
        | some url =>
          let q2 := setSearchParam
            (setSearchParam url.query "includeGuids" "1")
            "includeExternalMedia" "1"
          some { url with query := q2 }

/-- Concrete stand-in for the URL constructor, used for witnesses. -/
def stubUrlApi : String → String → Option JsUrl :=
  fun key _ =>
    some { scheme := "http", host := "plex.local", port := 32400,
           path := key, query := [] }

/-! ### Rating fetch (background worker and content-side wrapper) -/

/-- Lookup in a JS object keyed by season numbers. -/
def natMapGet (m : List (Nat × Nat)) (k : Nat) : Option Nat :=
  (m.find? (fun p => p.1 == k)).map (·.2)

/-- JS `m[k] = v` on a number-keyed object. -/
def natMapSet (m : List (Nat × Nat)) (k v : Nat) : List (Nat × Nat) :=
  if m.any (fun p => p.1 == k) then
    m.map (fun p => if p.1 == k then (k, v) else p)
  else m ++ [(k, v)]

/-- The response object of the background `fetchSerializdRating`.  Fields that
a given code path does not set are `none`. -/
structure SerializdResponse where
  success : Bool
  error : Option String
  rating : Option ℚ
  ratingOutOf10 : Option ℚ
  seasonMap : Option (List (Nat × Nat))
  tmdbId : Option Nat
deriving DecidableEq, Repr

/-- Outcome of fetching and inspecting the provider page, abstracting the
HTTP layer and the `__NEXT_DATA__` regex/JSON pass: a 404, a missing script
block, a JSON parse failure, a thrown transport/HTTP error (caught by the
message listener and surfaced as `{error}`), or a parsed payload with an
optional numeric `averageRating` and the season list (already filtered to
integer `seasonNumber`/`id` pairs, in document order). -/
inductive SerializdPayload
  | httpNotFound
  | noNextData
  | parseError
  | transportThrow (msg : String)
  | parsed (averageRating : Option ℚ) (seasons : List (Nat × Nat))
deriving DecidableEq, Repr

/-- `seasonMap[season.seasonNumber] = season.id` over the season list. -/
def buildSeasonMap (seasons : List (Nat × Nat)) : List (Nat × Nat) :=
  seasons.foldl (fun m p => natMapSet m p.1 p.2) []

/-- Background `fetchSerializdRating(tmdbId)`: 404 and parse failures return
`success:false` with an error message and no season map; a parsed payload
without a numeric rating returns `success:false, error:'No rating available'`
but with the season map; a numeric rating is halved to the 5-point scale.  A
thrown error reaches the content script as `{error: message}` via the
listener's catch. -/
def fetchSerializdRatingBg (tmdbId : Nat) (payload : SerializdPayload) :
    SerializdResponse :=
  match payload with
  | .httpNotFound =>
    { success := false, error := some "Show not found on Serializd",
      rating := none, ratingOutOf10 := none, seasonMap := none, tmdbId := none }
  | .noNextData =>
    { success := false, error := some "Could not parse Serializd data",
      rating := none, ratingOutOf10 := none, seasonMap := none, tmdbId := none }
  | .parseError =>
    { success := false, error := some "Error parsing Serializd data",
      rating := none, ratingOutOf10 := none, seasonMap := none, tmdbId := none }
  | .transportThrow msg =>
    { success := false, error := some msg,
      rating := none, ratingOutOf10 := none, seasonMap := none, tmdbId := none }
  | .parsed avg seasons =>
    match avg with
    | none =>
      { success := false, error := some "No rating available",
        rating := none, ratingOutOf10 := none,
        seasonMap := some (buildSeasonMap seasons), tmdbId := some tmdbId }
    | some r =>
      { success := true, error := none,
        rating := some (r / 2), ratingOutOf10 := some r,
        seasonMap := some (buildSeasonMap seasons), tmdbId := some tmdbId }

/-- Content-side `fetchSerializdRating`: the promise rejects whenever the
response carries a truthy `error` field, the surrounding catch turns the
rejection into `null`; otherwise the response object is returned as-is
(`none` input models a transport-level `chrome.runtime.lastError`). -/
def fetchSerializdRatingContent (bg : Option SerializdResponse) :
    Option SerializdResponse :=
  match bg with
  | none => none
  | some resp =>
    match resp.error with
    | some e => if e = "" then some resp else none
    | none => some resp

/-! ### Single resolution pass of `processTVShowPage` -/

/-- The per-run inputs of one resolution pass, after the Plex metadata fetch
and the DOM season/episode inference: page title and normalized year, the
identity delivered by `fetchTMDBIdFromPlex` (`plexShowTmdbId`,
`plexSeasonTmdbId`) with the season/episode numbers already overlaid from the
DOM, the (content-side) outcome `ratingResponse` that `fetchSerializdRating`
would deliver if called, and whether `injectSerializdLink` finds a target. -/
structure ResolveCtx where
  title : String
  year : String
  plexShowTmdbId : Option Nat
  plexSeasonTmdbId : Option Nat
  seasonNum : Option Nat
  episodeNum : Option Nat
  ratingResponse : Option SerializdResponse
  injectOk : Bool
deriving DecidableEq, Repr

/-- `seasonNum !== null || episodeNum !== null || seasonTmdbId !== null`. -/
def hasSeasonEpisodeContext (ctx : ResolveCtx) : Bool :=
  ctx.seasonNum.isSome || ctx.episodeNum.isSome || ctx.plexSeasonTmdbId.isSome

/-- The show id after the cached-id fallback: a falsy freshly-resolved id is
replaced by a truthy cached id only when no season/episode context exists. -/
def resolvedShowId (cache : ShowCache) (ctx : ResolveCtx) (now : Nat) :
    Option Nat :=
  let cached := getCachedRating cache ctx.title ctx.year now
  if !isTruthyNum ctx.plexShowTmdbId &&
      isTruthyNum (cached.bind (·.tmdbId)) && !hasSeasonEpisodeContext ctx then
    cached.bind (·.tmdbId)
  else ctx.plexShowTmdbId

/-- The season id after the cached season-map overlay: a falsy season id with
a season number present is filled from the cached season map when the cached
show id does not conflict with the resolved one. -/
def resolvedSeasonId (cache : ShowCache) (ctx : ResolveCtx) (now : Nat) :
    Option Nat :=
  let cached := getCachedRating cache ctx.title ctx.year now
  let showTmdbId := resolvedShowId cache ctx now
  let cachedSeasonLookup :=
    (cached.bind (·.seasonMap)).bind (fun m => natMapGet m (ctx.seasonNum.getD 0))
  if !isTruthyNum ctx.plexSeasonTmdbId && ctx.seasonNum.isSome &&
      isTruthyNum cachedSeasonLookup &&
      (!isTruthyNum (cached.bind (·.tmdbId)) || !isTruthyNum showTmdbId ||
        cached.bind (·.tmdbId) == showTmdbId) then
    cachedSeasonLookup
  else ctx.plexSeasonTmdbId

/-- The cache-hit guard of `processTVShowPage` (line with
`cached && cached.rating && !isExpired(...) && canUseCachedSeasonUrl &&
cachedMatchesResolvedShow`). -/
def cacheHitCond (cache : ShowCache) (ctx : ResolveCtx) (now : Nat) : Bool :=
  let cached := getCachedRating cache ctx.title ctx.year now
  let showTmdbId := resolvedShowId cache ctx now
  let seasonTmdbId := resolvedSeasonId cache ctx now
  let hasSeasonContext := ctx.seasonNum.isSome
  let canUseCachedSeasonUrl := !hasSeasonContext || isTruthyNum seasonTmdbId
  let cachedMatchesResolvedShow :=
    !isTruthyNum (cached.bind (·.tmdbId)) || cached.bind (·.tmdbId) == showTmdbId
  let cacheFresh :=
    match cached with
    | some e => !isExpired e.timestamp now CACHE_TTL
    | none => false
  cached.isSome && isTruthyRat (cached.bind (·.rating)) && cacheFresh &&
    canUseCachedSeasonUrl && cachedMatchesResolvedShow

/-- Result of one (non-superseded) resolution pass: the number of
rating-provider fetches performed, whether and with which rating the badge
was injected, the show-cache write, and the resulting cache. -/
structure ResolveResult where
  serializdFetches : Nat
  injected : Bool
  injectedRating : Option ℚ
  cacheWrite : Option (String × ShowCacheEntry)
  newCache : ShowCache
deriving DecidableEq, Repr

/-- One resolution pass of `processTVShowPage` from the `getCachedRating`
read onward, with all staleness checkpoints passing (the superseded-run
behaviour is modelled separately by `runPipeline`): no truthy show id aborts
with a retry; the cache-hit guard short-circuits into an injection with the
cached rating and zero provider fetches; otherwise `fetchSerializdRating`
runs once, the season id may be filled from the fetched season map (with the
URL rebuilt), and the entry is cached with the fetched rating — or without a
rating, but still cached, when none came back. -/
def resolveOnce (cache : ShowCache) (ctx : ResolveCtx) (now : Nat) :
    ResolveResult :=
  let cached := getCachedRating cache ctx.title ctx.year now
  let showTmdbId := resolvedShowId cache ctx now
  if !isTruthyNum showTmdbId then
    { serializdFetches := 0, injected := false, injectedRating := none,
      cacheWrite := none, newCache := cache }
  else
    let seasonTmdbId := resolvedSeasonId cache ctx now
    let url := buildSerializdUrl (showTmdbId.getD 0) seasonTmdbId
      ctx.seasonNum ctx.episodeNum
    if cacheHitCond cache ctx now then
      { serializdFetches := 0, injected := ctx.injectOk,
        injectedRating := if ctx.injectOk then cached.bind (·.rating) else none,
        cacheWrite := none, newCache := cache }
    else
      let ratingData := ctx.ratingResponse
      let fetchedSeasonLookup :=
        (ratingData.bind (·.seasonMap)).bind
          (fun m => natMapGet m (ctx.seasonNum.getD 0))
      let refill := !isTruthyNum seasonTmdbId && ctx.seasonNum.isSome &&
        isTruthyNum fetchedSeasonLookup
      let seasonTmdbId2 := if refill then fetchedSeasonLookup else seasonTmdbId
      let url2 :=
        if refill then
          buildSerializdUrl (showTmdbId.getD 0) seasonTmdbId2
            ctx.seasonNum ctx.episodeNum
        else url
      let cacheKey := getCacheKey ctx.title ctx.year
      if ratingData.isSome && isTruthyRat (ratingData.bind (·.rating)) then
        let entry : ShowCacheEntry :=
          { tmdbId := showTmdbId, url := url2,
            rating := ratingData.bind (·.rating),
            seasonMap := ratingData.bind (·.seasonMap),
            timestamp := some now }
        { serializdFetches := 1, injected := ctx.injectOk,
          injectedRating := if ctx.injectOk then ratingData.bind (·.rating) else none,
          cacheWrite := some (cacheKey, entry),
          newCache := cacheRating cache cacheKey entry now }
      else
        let entry : ShowCacheEntry :=
          { tmdbId := showTmdbId, url := url2, rating := none,
            seasonMap := ratingData.bind (·.seasonMap),
            timestamp := some now }
        { serializdFetches := 1, injected := ctx.injectOk,
          injectedRating := none,
          cacheWrite := some (cacheKey, entry),
          newCache := cacheRating cache cacheKey entry now }

/-- C8 scenario: the provider page parses, lists season 1 with id 10, but
carries no numeric `averageRating`. -/
def noRatingPayload : SerializdPayload := .parsed none [(1, 10)]

/-- C8 scenario: the resolution context after show id 77 resolved from Plex,
wired to what the content-side rating fetch actually delivers for
`noRatingPayload`. -/
def noRatingCtx : ResolveCtx :=
  { title := "Show", year := "2020", plexShowTmdbId := some 77,
    plexSeasonTmdbId := none, seasonNum := none, episodeNum := none,
    ratingResponse := fetchSerializdRatingContent
      (some (fetchSerializdRatingBg 77 noRatingPayload)),
    injectOk := true }

/-- C3 counterexample cache: the first resolution of "T (2020)" found no
rating and cached `{tmdbId: 42, no rating}` at time 1500. -/
def noRatingCache : ShowCache :=
  [("T-2020", { tmdbId := some 42, url := "https://www.serializd.com/show/42",
                rating := none, seasonMap := none, timestamp := some 1500 })]

/-- C3 counterexample context: the same page context "T (2020)" processed
again, without a Plex-resolved id and without season/episode context. -/
def ctxT : ResolveCtx :=
  { title := "T", year := "2020", plexShowTmdbId := none,
    plexSeasonTmdbId := none, seasonNum := none, episodeNum := none,
    ratingResponse := some
      { success := true, error := none, rating := some 4,
        ratingOutOf10 := some 8, seasonMap := some [], tmdbId := some 42 },
    injectOk := true }

/-- C3 amended-claim witness cache: the first resolution cached
`{tmdbId: 42, rating: 4}` at time 1500. -/
def ratedCache : ShowCache :=
  [("T-2020", { tmdbId := some 42, url := "https://www.serializd.com/show/42",
                rating := some 4, seasonMap := none, timestamp := some 1500 })]

/-! ### Run staleness and the checkpointed pipeline -/

/-- The navigation-relevant global state: the module counter
`latestProcessRunId` and `window.location.href`. -/
structure Global where
  latestRunId : Nat
  href : String
deriving DecidableEq, Repr

/-- The per-run snapshot taken at run start: `runId = ++latestProcessRunId`
and `runHref = window.location.href`. -/
structure RunInfo where
  runId : Nat
  runHref : String
deriving DecidableEq, Repr

/-- `isStaleRun()`:
`runId !== latestProcessRunId || window.location.href !== runHref`. -/
def isStaleRun (run : RunInfo) (g : Global) : Bool :=
  run.runId != g.latestRunId || g.href != run.runHref

/-- Observable actions of one resolution run. -/
inductive PipeAction
  | cacheWrite
  | inject
  | scheduleRetry
deriving DecidableEq, Repr

/-- Events of one resolution run: staleness checkpoints (with the staleness
bit the check computed) and actions. -/
inductive PipeEvent
  | checkpoint (i : Nat) (stale : Bool)
  | act (a : PipeAction)
deriving DecidableEq, Repr

/-- Branch-determining inputs of one run of `processTVShowPage`:
whether a truthy show id resolved, whether the cache-hit guard passes,
whether the provider fetch returns a truthy rating, and whether injection
finds a target. -/
structure PipeInput where
  resolvedShow : Bool
  cacheHit : Bool
  ratingOk : Bool
  injectOk : Bool
deriving DecidableEq, Repr

/-- Event trace of one `processTVShowPage` run after the run id and href were
snapshotted.  `env i` is the global state observed at the i-th static
staleness checkpoint — the preceding `await` lets it change arbitrarily.
Checkpoints: 1 after the Plex metadata fetch, 2 after show-id resolution,
3 before the cache-hit injection, 4 after the Serializd fetch, 5 before the
fresh-fetch injection.  A stale checkpoint returns immediately; the no-show
retry is scheduled between checkpoints 1 and 2; the show-cache write happens
between checkpoints 4 and 5 in both the with-rating and no-rating branches;
a failed injection schedules a retry. -/
def runPipeline (run : RunInfo) (env : Nat → Global) (inp : PipeInput) :
    List PipeEvent :=
  let s1 := isStaleRun run (env 1)
  PipeEvent.checkpoint 1 s1 ::
    (if s1 then [] else
     if !inp.resolvedShow then [PipeEvent.act .scheduleRetry] else
     let s2 := isStaleRun run (env 2)
     PipeEvent.checkpoint 2 s2 ::
       (if s2 then [] else
        if inp.cacheHit then
          let s3 := isStaleRun run (env 3)
          PipeEvent.checkpoint 3 s3 ::
            (if s3 then [] else
             if inp.injectOk then [PipeEvent.act .inject]
             else [PipeEvent.act .scheduleRetry])
        else
          let s4 := isStaleRun run (env 4)
          PipeEvent.checkpoint 4 s4 ::
            (if s4 then [] else
             if inp.ratingOk then
               PipeEvent.act .cacheWrite ::
                 (let s5 := isStaleRun run (env 5)
                  PipeEvent.checkpoint 5 s5 ::
                    (if s5 then [] else
                     if inp.injectOk then [PipeEvent.act .inject]
                     else [PipeEvent.act .scheduleRetry]))
             else
               PipeEvent.act .cacheWrite ::
                 (let s5 := isStaleRun run (env 5)
                  PipeEvent.checkpoint 5 s5 ::
                    (if s5 then [] else
                     if inp.injectOk then [PipeEvent.act .inject]
                     else [PipeEvent.act .scheduleRetry])))))

/-! ### TTL lemmas -/

/-- Unfolding of a passing (non-expired) TTL check. -/
theorem isExpired_eq_false_iff (ts : Option Nat) (now ttl : Nat) :
    isExpired ts now ttl = false ↔
      ∃ t, ts = some t ∧ t ≠ 0 ∧ ¬((now : Int) - (t : Int) > (ttl : Int)) := by
  cases ts with
  | none => simp [isExpired]
  | some t =>
    by_cases h : t = 0 <;> simp [isExpired, h]

/-- Shared helper: a successful show-cache read passed a real TTL check. -/
theorem getCachedRating_timestamp_fresh
    (shows : ShowCache) (title year : String) (now : Nat) (e : ShowCacheEntry)
    (he : getCachedRating shows title year now = some e) :
    ∃ t, e.timestamp = some t ∧ t ≠ 0 ∧
      ¬((now : Int) - (t : Int) > (CACHE_TTL : Int)) := by
  unfold getCachedRating at he
  cases hg : objGet shows (getCacheKey title year) with
  | none => rw [hg] at he; exact absurd he (by simp)
  | some entry =>
    rw [hg] at he
    by_cases hex : isExpired entry.timestamp now CACHE_TTL
    · simp [hex] at he
    · simp [hex] at he
      obtain ⟨t, ht, ht0, hle⟩ :=
        (isExpired_eq_false_iff entry.timestamp now CACHE_TTL).mp
          (Bool.eq_false_iff.mpr hex)
      exact ⟨t, by rw [← he]; exact ht, ht0, hle⟩

/-- Shared helper: a successful server-cache read passed a real TTL check. -/
theorem getCachedServerInfo_timestamp_fresh
    (servers : ServerCache) (serverId : String) (now : Nat)
    (e : ServerCacheEntry)
    (he : (getCachedServerInfo servers serverId now).1 = some e) :
    ∃ t, e.timestamp = some t ∧ t ≠ 0 ∧
      ¬((now : Int) - (t : Int) > (SERVER_CACHE_TTL : Int)) := by
  unfold getCachedServerInfo at he
  cases hg : objGet servers (getServerCacheKey serverId) with
  | none => rw [hg] at he; exact absurd he (by simp)
  | some entry =>
    rw [hg] at he
    by_cases hex : isExpired entry.timestamp now SERVER_CACHE_TTL
    · simp [hex] at he
    · by_cases hv : isValidServerCacheEntry entry
      · simp [hex, hv] at he
        obtain ⟨t, ht, ht0, hle⟩ :=
          (isExpired_eq_false_iff entry.timestamp now SERVER_CACHE_TTL).mp
            (Bool.eq_false_iff.mpr hex)
        exact ⟨t, by rw [← he]; exact ht, ht0, hle⟩
      · simp [hex, hv] at he

/-- C7: a cache read never returns an expired entry.  `getCachedRating`
returns `null` whenever the stored show entry's timestamp is more than
`CACHE_TTL = 604800` seconds in the past, and `getCachedServerInfo` returns
`null` whenever the stored server entry's timestamp is more than
`SERVER_CACHE_TTL = 600` seconds in the past — for every cache state, key and
read time.  Stated positively: any entry returned carries a timestamp within
the respective TTL of the read time. -/
theorem cache_reads_never_return_expired
    (shows : ShowCache) (title year : String)
    (servers : ServerCache) (serverId : String) (now : Nat) :
    (∀ e, getCachedRating shows title year now = some e →
      ∃ t, e.timestamp = some t ∧ ¬((now : Int) - (t : Int) > (CACHE_TTL : Int))) ∧
    (∀ e, (getCachedServerInfo servers serverId now).1 = some e →
      ∃ t, e.timestamp = some t ∧ ¬((now : Int) - (t : Int) > (SERVER_CACHE_TTL : Int))) := by
  constructor
  · intro e he
    obtain ⟨t, ht, _, hle⟩ := getCachedRating_timestamp_fresh shows title year now e he
    exact ⟨t, ht, hle⟩
  · intro e he
    obtain ⟨t, ht, _, hle⟩ :=
      getCachedServerInfo_timestamp_fresh servers serverId now e he
    exact ⟨t, ht, hle⟩

/-- C7 witness: a concrete fresh entry is returned with its timestamp within
the TTL. -/
theorem cache_reads_never_return_expired_witness :
    ∃ t, ({ tmdbId := some 9, url := "u", rating := some 4, seasonMap := none,
            timestamp := some 1000 } : ShowCacheEntry).timestamp = some t ∧
      ¬((1500 : Int) - (t : Int) > (CACHE_TTL : Int)) :=
  (cache_reads_never_return_expired
      [("t-2020", { tmdbId := some 9, url := "u", rating := some 4,
                    seasonMap := none, timestamp := some 1000 })]
      "t" "2020" [] "s" 1500).1
    { tmdbId := some 9, url := "u", rating := some 4, seasonMap := none,
      timestamp := some 1000 }
    (by decide)

/-- C10: every TTL check treats an entry lacking a timestamp (or carrying the
falsy timestamp `0`) as expired, for every TTL and read time; consequently
neither `getCachedRating` nor `getCachedServerInfo` ever returns such an
entry. -/
theorem missing_timestamp_is_expired
    (shows : ShowCache) (title year : String)
    (servers : ServerCache) (serverId : String) (now : Nat) :
    (∀ ts ttl n, (ts = none ∨ ts = some 0) → isExpired ts n ttl = true) ∧
    (∀ e, getCachedRating shows title year now = some e →
      e.timestamp ≠ none ∧ e.timestamp ≠ some 0) ∧
    (∀ e, (getCachedServerInfo servers serverId now).1 = some e →
      e.timestamp ≠ none ∧ e.timestamp ≠ some 0) := by
  refine ⟨?_, ?_, ?_⟩
  · intro ts ttl n hts
    rcases hts with h | h <;> simp [h, isExpired]
  · intro e he
    obtain ⟨t, ht, ht0, _⟩ := getCachedRating_timestamp_fresh shows title year now e he
    constructor
    · rw [ht]; simp
    · rw [ht]; simp [ht0]
  · intro e he
    obtain ⟨t, ht, ht0, _⟩ :=
      getCachedServerInfo_timestamp_fresh servers serverId now e he
    constructor
    · rw [ht]; simp
    · rw [ht]; simp [ht0]

/-- C10 witness: at a concrete state, a timestampless entry evaluates as
expired and a returned concrete entry has a non-falsy timestamp. -/
theorem missing_timestamp_is_expired_witness :
    isExpired none 5 9999 = true ∧
    (({ address := "a", port := "32400", scheme := "http", localAddresses := none,
        serverName := none, timestamp := some 100 } : ServerCacheEntry).timestamp ≠ none) :=
  ⟨(missing_timestamp_is_expired [] "t" "y" [] "s" 0).1 none 9999 5 (Or.inl rfl),
   ((missing_timestamp_is_expired
        [] "t" "y"
        [(getServerCacheKey "s",
          { address := "a", port := "32400", scheme := "http", localAddresses := none,
            serverName := none, timestamp := some 100 })]
        "s" 150).2.2
      { address := "a", port := "32400", scheme := "http", localAddresses := none,
        serverName := none, timestamp := some 100 } (by decide)).1⟩

/-- C1: the write path can exceed the 50-entry cap.  `pruneCacheEntries` only
prunes when strictly more than `MAX_CACHE_ENTRIES` entries exist and prunes
down to `MAX_CACHE_ENTRIES` (not `MAX_CACHE_ENTRIES − 1`), so writing a new
key into an exactly-full cache leaves 51 entries: evaluated here on a concrete
50-entry cache and a fresh server id. -/
theorem cacheServerInfo_exceeds_cap :
    fullServerCache50.length = MAX_CACHE_ENTRIES ∧
    (cacheServerInfo fullServerCache50 "fresh" freshServerInfo 5000).2.length =
      MAX_CACHE_ENTRIES + 1 := by
  constructor
  · rfl
  · rfl

/-- C4: the retry scheduler uses the fixed backoff list `[350, 900, 1800]` ms
and at most 3 attempts per href — arming attempt `k+1` (for `k < 3`) with
delay `RETRY_DELAYS_MS[k]` and refusing further timers at 3 attempts; a
schedule request while a timer is pending for the tracked href is a no-op; a
request for a different href resets the counter before scheduling (so it arms
attempt 1 with 350 ms); and a timer that fires after the href changed clears
the state without re-invoking the resolution pipeline. -/
theorem schedulePageRetry_policy (c : String) (s : RetryState) :
    RETRY_DELAYS_MS = [350, 900, 1800] ∧
    (s.href = some c → s.timerPending.isSome → schedulePageRetry c s = s) ∧
    (s.href = some c → s.timerPending = none → 3 ≤ s.attempts →
      schedulePageRetry c s = s) ∧
    (s.attempts ≤ 3 → (schedulePageRetry c s).attempts ≤ 3) ∧
    (s.href = some c → s.timerPending = none → s.attempts < 3 →
      schedulePageRetry c s =
        { href := some c, attempts := s.attempts + 1,
          timerPending := some (c, RETRY_DELAYS_MS.getD s.attempts 0) }) ∧
    (s.href ≠ some c →
      schedulePageRetry c s =
        { href := some c, attempts := 1, timerPending := some (c, 350) }) ∧
    (∀ captured d, s.timerPending = some (captured, d) → c ≠ captured →
      timerFire c s = (clearRetryState, false)) := by
  refine ⟨rfl, ?_, ?_, ?_, ?_, ?_, ?_⟩
  · intro hh hp
    simp [schedulePageRetry, hh, hp]
  · intro hh hp ha
    simp [schedulePageRetry, hh, hp, RETRY_DELAYS_MS, ha]
  · intro ha
    by_cases hh : s.href = some c
    · by_cases hp : s.timerPending.isSome
      · simpa [schedulePageRetry, hh, hp] using ha
      · by_cases hk : s.attempts ≥ RETRY_DELAYS_MS.length
        · simpa [schedulePageRetry, hh, hp, hk] using ha
        · have hk3 : s.attempts + 1 ≤ 3 := by
            simp [RETRY_DELAYS_MS] at hk; omega
          simpa [schedulePageRetry, hh, hp, hk] using hk3
    · by_cases hk : (0 : Nat) ≥ RETRY_DELAYS_MS.length
      · simp [RETRY_DELAYS_MS] at hk
      · simp [schedulePageRetry, hh, clearRetryState, RETRY_DELAYS_MS]
  · intro hh hp ha
    have hk : ¬ s.attempts ≥ RETRY_DELAYS_MS.length := by
      simp only [RETRY_DELAYS_MS, List.length]; omega
    simp [schedulePageRetry, hh, hp, hk]
  · intro hh
    simp [schedulePageRetry, hh, clearRetryState, RETRY_DELAYS_MS]
  · intro captured d hp hc
    simp [timerFire, hp, hc]

/-- C4 witness: a schedule request for a new href on a state that tracked a
different href with a pending second-attempt timer resets the counter and arms
the first 350 ms attempt for the new href. -/
theorem schedulePageRetry_policy_witness :
    schedulePageRetry "B"
        { href := some "A", attempts := 2, timerPending := some ("A", 900) } =
      { href := some "B", attempts := 1, timerPending := some ("B", 350) } :=
  (schedulePageRetry_policy "B"
      { href := some "A", attempts := 2, timerPending := some ("A", 900) }).2.2.2.2.2.1
    (by decide)

/-- C5: a metadata response of type `episode` with `parentIndex=2`, `index=5`,
grandparent guid tmdb id 100 and parent guid tmdb id 200 extracts exactly
`{showId:100, seasonId:200, seasonNumber:2, episodeNumber:5}`, and the
external URL for that identity orders its path segments `show/100`, then
`season/200/2`, then `episode/5`. -/
theorem extractEpisode_identity_and_url :
    extractTMDBIdFromPlexXml episodeXmlScenario =
      some { showTmdbId := some 100, seasonTmdbId := some 200,
             seasonNum := some 2, episodeNum := some 5 } ∧
    buildSerializdUrl 100 (some 200) (some 2) (some 5) =
      "https://www.serializd.com/show/100/season/200/2/episode/5" := by
  exact ⟨rfl, rfl⟩

/-- C6: the fallback traversal extracts at most two related keys, in the
order grandparent key then parent key (deduplicated); the merge on a
successful related fetch takes the related show id but prefers the primary
response's season/episode data, falling back to the related response's; and
on the concrete scenario — a primary episode record without a grandparent
reference but with `parentRatingKey=55`, whose fallback fetch of
`/library/metadata/55` yields show-level id 77 — the resolved show id is 77
(with the primary's season/episode numbers kept). -/
theorem fetchTMDBIdFromPlex_fallback_traversal
    (x : PlexXml) (pd : Option ResolvedIdentity) (r : ResolvedIdentity) :
    (extractRelatedPlexKeys x).length ≤ 2 ∧
    (∀ g p, x.grandparentRatingKey = some g → x.parentRatingKey = some p →
      ("/library/metadata/" ++ toString g) ≠ ("/library/metadata/" ++ toString p) →
      extractRelatedPlexKeys x =
        ["/library/metadata/" ++ toString g, "/library/metadata/" ++ toString p]) ∧
    ((pd.bind (·.seasonNum)).isSome →
      (mergeFallbackIdentity pd r).seasonNum = pd.bind (·.seasonNum)) ∧
    (pd.bind (·.seasonNum) = none →
      (mergeFallbackIdentity pd r).seasonNum = r.seasonNum) ∧
    (mergeFallbackIdentity pd r).showTmdbId = r.showTmdbId ∧
    fetchTMDBIdFromPlex episodeNoGrandparentXml relatedFetch55 =
      some { showTmdbId := some 77, seasonTmdbId := none,
             seasonNum := some 2, episodeNum := some 5 } := by
  refine ⟨?_, ?_, ?_, ?_, rfl, ?_⟩
  · cases hg : x.grandparentRatingKey <;> cases hp : x.parentRatingKey <;>
      simp [extractRelatedPlexKeys, hg, hp]
    split <;> simp
  · intro g p hg hp hne
    have hne' : ¬("/library/metadata/" ++ toString p =
        "/library/metadata/" ++ toString g) := fun hEq => hne hEq.symm
    simp [extractRelatedPlexKeys, hg, hp, List.contains, hne']
  · intro h
    cases hpd : pd.bind (·.seasonNum) with
    | none => rw [hpd] at h; simp at h
    | some n => simp [mergeFallbackIdentity, hpd, ncoalesce]
  · intro h
    simp [mergeFallbackIdentity, h, ncoalesce]
  · rfl

/-- C6 witness: on a record with grandparent rating key 1 and parent rating
key 2 the related keys come out in grandparent-then-parent order. -/
theorem fetchTMDBIdFromPlex_fallback_traversal_witness :
    extractRelatedPlexKeys relatedKeysXml12 =
      ["/library/metadata/1", "/library/metadata/2"] :=
  (fetchTMDBIdFromPlex_fallback_traversal relatedKeysXml12 none
      { showTmdbId := none, seasonTmdbId := none, seasonNum := none,
        episodeNum := none }).2.1 1 2 rfl rfl (by decide)

/-- Setting a query parameter makes the pair present. -/
theorem mem_setSearchParam_self (q : List (String × String)) (k v : String) :
    (k, v) ∈ setSearchParam q k v := by
  unfold setSearchParam
  by_cases hq : q.any (fun p => p.1 == k)
  · simp only [hq, if_true]
    obtain ⟨p, hp, hpk⟩ := List.any_eq_true.mp hq
    refine List.mem_map.mpr ⟨p, hp, ?_⟩
    simp only [hpk, if_true]
  · simp [hq]

/-- Setting one query parameter preserves pairs under a different key. -/
theorem mem_setSearchParam_other (q : List (String × String))
    (k v k' v' : String) (h : (k, v) ∈ q) (hk : k ≠ k') :
    (k, v) ∈ setSearchParam q k' v' := by
  unfold setSearchParam
  by_cases hq : q.any (fun p => p.1 == k')
  · simp only [hq, if_true]
    refine List.mem_map.mpr ⟨(k, v), h, ?_⟩
    simp [hk]
  · simp [hq, h]

/-- C9: `buildPlexApiUrl` is total and fails closed — whatever the URL
constructor does, any non-null result implies the scheme was exactly `http`
or `https`, the port parsed to an integer in `[1, 65535]`, and the address
contained none of `/`, `?`, `#`; moreover every non-null result carries the
query parameters `includeGuids=1` and `includeExternalMedia=1`. -/
theorem buildPlexApiUrl_fails_closed
    (urlApi : String → String → Option JsUrl)
    (scheme address port plexKey : String) :
    ∀ u, buildPlexApiUrl urlApi scheme address port plexKey = some u →
      (scheme = "http" ∨ scheme = "https") ∧
      (∃ p : Int, jsParseInt port = some p ∧ 1 ≤ p ∧ p ≤ 65535) ∧
      containsChar address '/' = false ∧
      containsChar address '?' = false ∧
      containsChar address '#' = false ∧
      ("includeGuids", "1") ∈ u.query ∧
      ("includeExternalMedia", "1") ∈ u.query := by
  intro u h
  unfold buildPlexApiUrl at h
  split at h
  · exact absurd h (by simp)
  next hs0 =>
    split at h
    · exact absurd h (by simp)
    next portNum hp =>
      split at h
      · exact absurd h (by simp)
      next hrange =>
        split at h
        · exact absurd h (by simp)
        next haddr =>
          split at h
          · exact absurd h (by simp)
          next url hu =>
            simp only [Option.some.injEq] at h
            subst h
            simp only [Bool.or_eq_true, not_or, Bool.not_eq_true] at haddr
            refine ⟨not_not.mp hs0, ⟨portNum, hp, by omega, by omega⟩,
              haddr.1.1, haddr.1.2, haddr.2, ?_, ?_⟩
            · exact mem_setSearchParam_other
                (setSearchParam url.query "includeGuids" "1")
                "includeGuids" "1" "includeExternalMedia" "1"
                (mem_setSearchParam_self url.query "includeGuids" "1")
                (by decide)
            · exact mem_setSearchParam_self
                (setSearchParam url.query "includeGuids" "1")
                "includeExternalMedia" "1"

/-- C9 witness: on a well-formed concrete input the result exists and carries
both query parameters. -/
theorem buildPlexApiUrl_fails_closed_witness :
    ("http" = "http" ∨ ("http" : String) = "https") ∧
    (∃ p : Int, jsParseInt "32400" = some p ∧ 1 ≤ p ∧ p ≤ 65535) ∧
    containsChar "plex.local" '/' = false ∧
    containsChar "plex.local" '?' = false ∧
    containsChar "plex.local" '#' = false ∧
    ("includeGuids", "1") ∈
      ({ scheme := "http", host := "plex.local", port := 32400,
         path := "/library/metadata/1",
         query := [("includeGuids", "1"), ("includeExternalMedia", "1")] } : JsUrl).query ∧
    ("includeExternalMedia", "1") ∈
      ({ scheme := "http", host := "plex.local", port := 32400,
         path := "/library/metadata/1",
         query := [("includeGuids", "1"), ("includeExternalMedia", "1")] } : JsUrl).query :=
  buildPlexApiUrl_fails_closed stubUrlApi "http" "plex.local" "32400"
    "/library/metadata/1"
    { scheme := "http", host := "plex.local", port := 32400,
      path := "/library/metadata/1",
      query := [("includeGuids", "1"), ("includeExternalMedia", "1")] }
    rfl

/-- Shared helper: a successful show-cache read means the entry passed the
TTL check. -/
theorem getCachedRating_not_expired (cache : ShowCache) (title year : String)
    (now : Nat) (e : ShowCacheEntry)
    (hc : getCachedRating cache title year now = some e) :
    isExpired e.timestamp now CACHE_TTL = false := by
  unfold getCachedRating at hc
  cases hg : objGet cache (getCacheKey title year) with
  | none => rw [hg] at hc; exact absurd hc (by simp)
  | some entry =>
    rw [hg] at hc
    by_cases hex : isExpired entry.timestamp now CACHE_TTL
    · simp [hex] at hc
    · simp [hex] at hc
      rw [← hc]
      exact Bool.eq_false_iff.mpr hex

/-- C3 counterexample: a page context processed again within the TTL window —
the cache still holds the fresh entry written by the first resolution — can
perform a provider fetch after all: the first resolution cached the entry
without a rating, and the cache-hit guard requires a truthy cached rating, so
the second resolution calls `fetchSerializdRating` once instead of zero
times. -/
theorem second_resolution_refetches_without_cached_rating :
    (getCachedRating noRatingCache "T" "2020" 2000).isSome = true ∧
    ¬((resolveOnce noRatingCache ctxT 2000).serializdFetches = 0) := by
  constructor
  · rfl
  · decide

/-- C3 (amended): a second resolution of the same page context within the TTL
window reuses the cached entry and performs zero provider fetches *provided*
the cached entry carries a truthy rating, the resolved show id is truthy and
consistent with the cached one, and any season context is satisfied by a
truthy resolved season id; the injected badge then carries the cached
rating and no cache write occurs. -/
theorem cached_rating_hit_skips_provider_fetch
    (cache : ShowCache) (ctx : ResolveCtx) (now : Nat) (e : ShowCacheEntry)
    (hc : getCachedRating cache ctx.title ctx.year now = some e)
    (hr : isTruthyRat e.rating = true)
    (hshow : isTruthyNum (resolvedShowId cache ctx now) = true)
    (hseason : ctx.seasonNum.isSome = true →
      isTruthyNum (resolvedSeasonId cache ctx now) = true)
    (hmatch : isTruthyNum e.tmdbId = true →
      e.tmdbId = resolvedShowId cache ctx now) :
    (resolveOnce cache ctx now).serializdFetches = 0 ∧
    (resolveOnce cache ctx now).cacheWrite = none ∧
    (resolveOnce cache ctx now).injectedRating =
      (if ctx.injectOk then e.rating else none) := by
  have hexp := getCachedRating_not_expired cache ctx.title ctx.year now e hc
  have hcond : cacheHitCond cache ctx now = true := by
    simp only [cacheHitCond]
    rw [hc]
    simp only [Option.isSome_some, Option.some_bind, hr, hexp, Bool.not_false,
      Bool.true_and, Bool.and_true]
    rw [Bool.and_eq_true]
    constructor
    · cases hsn : ctx.seasonNum.isSome
      · simp
      · simp [hseason hsn]
    · cases hti : isTruthyNum e.tmdbId
      · simp
      · simp [hmatch hti]
  refine ⟨?_, ?_, ?_⟩ <;>
    simp only [resolveOnce, hc, hshow, hcond, Option.some_bind, Bool.not_true,
      Bool.false_eq_true, if_false, if_true, reduceIte]

/-- C3 amended-claim witness: the concrete rated cache entry short-circuits
the second resolution with zero fetches, no write, and the cached rating on
the injected badge. -/
theorem cached_rating_hit_skips_provider_fetch_witness :
    (resolveOnce ratedCache ctxT 2000).serializdFetches = 0 ∧
    (resolveOnce ratedCache ctxT 2000).cacheWrite = none ∧
    (resolveOnce ratedCache ctxT 2000).injectedRating =
      (if ctxT.injectOk then
        ({ tmdbId := some 42, url := "https://www.serializd.com/show/42",
           rating := some 4, seasonMap := none,
           timestamp := some 1500 } : ShowCacheEntry).rating
      else none) :=
  cached_rating_hit_skips_provider_fetch ratedCache ctxT 2000
    { tmdbId := some 42, url := "https://www.serializd.com/show/42",
      rating := some 4, seasonMap := none, timestamp := some 1500 }
    rfl (by decide) (by decide) (by decide) (by decide)

/-- C8: on a provider payload with no extractable numeric rating but a
parseable season list, the background fetch does return a `success:false`
result that carries the season map — but with `error` set, so the
content-side wrapper rejects it and delivers `null`; the caller still writes
a show-cache entry (not treating the outcome as a failure), yet that entry
carries no season map, contradicting the content script's own comment that a
`success:false` response is passed through because it may include the season
map. -/
theorem partial_rating_seasonMap_dropped :
    (fetchSerializdRatingBg 77 noRatingPayload).success = false ∧
    (fetchSerializdRatingBg 77 noRatingPayload).error = some "No rating available" ∧
    (fetchSerializdRatingBg 77 noRatingPayload).seasonMap = some [(1, 10)] ∧
    fetchSerializdRatingContent (some (fetchSerializdRatingBg 77 noRatingPayload)) = none ∧
    (resolveOnce [] noRatingCtx 1000).cacheWrite =
      some ("Show-2020",
        { tmdbId := some 77, url := "https://www.serializd.com/show/77",
          rating := none, seasonMap := none, timestamp := some 1000 }) ∧
    (resolveOnce [] noRatingCtx 1000).serializdFetches = 1 := by
  exact ⟨rfl, rfl, rfl, rfl, rfl, rfl⟩

/-- Unfolding of a passing staleness check. -/
theorem isStaleRun_eq_false_iff (run : RunInfo) (g : Global) :
    isStaleRun run g = false ↔
      run.runId = g.latestRunId ∧ g.href = run.runHref := by
  simp [isStaleRun]

/-- C2: staleness isolation of `processTVShowPage` runs.  First, a staleness
checkpoint that observes a stale run (counter moved on or href changed) is
the final event of the run's trace — no show-cache write and no DOM injection
(indeed nothing at all) happens after it.  Second, every cache write and
every injection is guarded: some checkpoint of the run observed it as current
(its snapshotted run id equal to the global counter and the href unchanged).
Third, since the counter dominates every started run's id, a run that passes
a checkpoint has the maximal id among started runs — only the most recently
started run can write the cache or inject. -/
theorem processTVShowPage_stale_run_isolation
    (run : RunInfo) (env : Nat → Global) (inp : PipeInput) :
    (∀ i, PipeEvent.checkpoint i true ∈ runPipeline run env inp →
      (runPipeline run env inp).getLast? = some (PipeEvent.checkpoint i true)) ∧
    (∀ a, PipeEvent.act a ∈ runPipeline run env inp →
      (a = PipeAction.cacheWrite ∨ a = PipeAction.inject) →
      ∃ i, PipeEvent.checkpoint i false ∈ runPipeline run env inp ∧
        run.runId = (env i).latestRunId ∧ (env i).href = run.runHref) ∧
    (∀ i r, run.runId = (env i).latestRunId → r ≤ (env i).latestRunId →
      r ≤ run.runId) := by
  refine ⟨?_, ?_, fun i r h1 h2 => le_of_le_of_eq h2 h1.symm⟩
  · intro i hi
    cases hs1 : isStaleRun run (env 1)
    · cases hres : inp.resolvedShow
      · simp [runPipeline, hs1, hres] at hi
      · cases hs2 : isStaleRun run (env 2)
        · cases hhit : inp.cacheHit
          · cases hs4 : isStaleRun run (env 4)
            · cases hrok : inp.ratingOk
              · cases hs5 : isStaleRun run (env 5)
                · cases hinj : inp.injectOk
                  · simp [runPipeline, hs1, hres, hs2, hhit, hs4, hrok, hs5,
                      hinj] at hi
                  · simp [runPipeline, hs1, hres, hs2, hhit, hs4, hrok, hs5,
                      hinj] at hi
                · simp [runPipeline, hs1, hres, hs2, hhit, hs4, hrok, hs5] at hi
                  subst hi
                  simp [runPipeline, hs1, hres, hs2, hhit, hs4, hrok, hs5]
              · cases hs5 : isStaleRun run (env 5)
                · cases hinj : inp.injectOk
                  · simp [runPipeline, hs1, hres, hs2, hhit, hs4, hrok, hs5,
                      hinj] at hi
                  · simp [runPipeline, hs1, hres, hs2, hhit, hs4, hrok, hs5,
                      hinj] at hi
                · simp [runPipeline, hs1, hres, hs2, hhit, hs4, hrok, hs5] at hi
                  subst hi
                  simp [runPipeline, hs1, hres, hs2, hhit, hs4, hrok, hs5]
            · simp [runPipeline, hs1, hres, hs2, hhit, hs4] at hi
              subst hi
              simp [runPipeline, hs1, hres, hs2, hhit, hs4]
          · cases hs3 : isStaleRun run (env 3)
            · cases hinj : inp.injectOk
              · simp [runPipeline, hs1, hres, hs2, hhit, hs3, hinj] at hi
              · simp [runPipeline, hs1, hres, hs2, hhit, hs3, hinj] at hi
            · simp [runPipeline, hs1, hres, hs2, hhit, hs3] at hi
              subst hi
              simp [runPipeline, hs1, hres, hs2, hhit, hs3]
        · simp [runPipeline, hs1, hres, hs2] at hi
          subst hi
          simp [runPipeline, hs1, hres, hs2]
    · simp [runPipeline, hs1] at hi
      subst hi
      simp [runPipeline, hs1]
  · intro a ha hwa
    cases hs1 : isStaleRun run (env 1)
    · refine ⟨1, ?_, ((isStaleRun_eq_false_iff run (env 1)).mp hs1).1,
        ((isStaleRun_eq_false_iff run (env 1)).mp hs1).2⟩
      simp [runPipeline, hs1]
    · simp [runPipeline, hs1] at ha

/-- C2 witness: a concrete run that is already superseded at checkpoint 1
(global counter 2 vs run id 1) ends its trace at that stale checkpoint. -/
theorem processTVShowPage_stale_run_isolation_witness :
    (runPipeline { runId := 1, runHref := "A" }
        (fun _ => { latestRunId := 2, href := "A" })
        { resolvedShow := true, cacheHit := true, ratingOk := true,
          injectOk := true }).getLast? =
      some (PipeEvent.checkpoint 1 true) :=
  (processTVShowPage_stale_run_isolation { runId := 1, runHref := "A" }
      (fun _ => { latestRunId := 2, href := "A" })
      { resolvedShow := true, cacheHit := true, ratingOk := true,
        injectOk := true }).1 1 (by decide)

end SerializdPlex
